import Mathlib

/-!
Shallow embedding of the UniVendor client forms:
the Variant Matrix Generator of `client/src/components/products/ProductForm.tsx`
and the checkout step wizard of the checkout form component.

Modelling conventions:
* JS strings are Lean `String` (`substring(0, n)` is `String.take n`,
  `toUpperCase()` is `String.toUpper`, `trim()` is `String.trim`;
  all labels occurring in this program are ASCII, where these agree with JS).
* JS numbers are exact rationals `ℚ` (the arithmetic in the generator is
  `* 1.2`, `* 0.7` on user-entered decimals, modelled exactly).
* `Math.random().toString(36).substring(2, 9)` produces an opaque fresh
  identifier per generated record; it is modelled as the record's index in
  the generated collection, an opaque fresh token supply.
* React `useState` state is threaded explicitly through state records.
-/

namespace UniVendor

/-- A generated variant row, as built inside the "Generate Variant Matrix"
`onClick` handler of `ProductForm.tsx`. -/
structure VariantRecord where
  id : Nat
  color : String
  size : String
  sku : String
  sellingPrice : ℚ
  mrp : ℚ
  purchasePrice : ℚ
  gst : ℚ
  inventoryQuantity : ℚ
  images : List String
  imageUrl : Option String
deriving Repr, DecidableEq

/-- The base product fields the generator reads from the enclosing form:
`form.getValues("name")` (a string, `""` when unset),
`form.getValues("sku")` (nullable string) and
`form.getValues("sellingPrice")` (nullable number). -/
structure BaseProductFields where
  name : String
  sku : Option String
  sellingPrice : Option ℚ
deriving Repr, DecidableEq

/-- `form.getValues("sellingPrice") || 0`: `null` (and `0` itself) yield `0`. -/
def basePrice (b : BaseProductFields) : ℚ :=
  b.sellingPrice.getD 0

/-- `form.getValues("sku") || (form.getValues("name") ? form.getValues("name").substring(0, 3).toUpperCase() : "PRD")`.
A `null` or empty SKU is falsy and falls back to the name-derived token;
an empty name is falsy and falls back to `"PRD"`. -/
def baseSku (b : BaseProductFields) : String :=
  match b.sku with
  | some s => if s = "" then (if b.name = "" then "PRD" else (b.name.take 3).toUpper) else s
  | none => if b.name = "" then "PRD" else (b.name.take 3).toUpper

/-- One loop body of the generator: the object literal pushed onto `variants`. -/
def mkVariant (vid : Nat) (sku0 : String) (price : ℚ) (color size : String) :
    VariantRecord :=
  { id := vid
  , color := color
  , size := size
  , sku := sku0 ++ "-" ++ color.take 1 ++ size
  , sellingPrice := price
  , mrp := price * (12 / 10)          -- basePrice * 1.2
  , purchasePrice := price * (7 / 10) -- basePrice * 0.7
  , gst := 18
  , inventoryQuantity := 10
  , images := []
  , imageUrl := none }

/-- The nested `for (const color of selectedColors) for (const size of selectedSizes)`
enumeration: colors outer, sizes inner. -/
def variantMatrix (colors sizes : List String) : List (String × String) :=
  colors.flatMap (fun c => sizes.map (fun s => (c, s)))

/-- The `variants.push(...)` loop over an enumeration, threading the fresh-id
supply: the `n`-th pushed record receives the `n`-th fresh token. -/
def generateFrom (sku0 : String) (price : ℚ) :
    Nat → List (String × String) → List VariantRecord
  | _, [] => []
  | n, p :: ps => mkVariant n sku0 price p.1 p.2 :: generateFrom sku0 price (n + 1) ps

/-- The full list built by the generator loop, with fresh ids. -/
def generateVariants (colors sizes : List String) (b : BaseProductFields) :
    List VariantRecord :=
  generateFrom (baseSku b) (basePrice b) 0 (variantMatrix colors sizes)

/-- The in-memory state of the variants tab: `selectedColors`, `selectedSizes`
and `generatedVariants` `useState` hooks. -/
structure VariantFormState where
  selectedColors : List String
  selectedSizes : List String
  generatedVariants : List VariantRecord
deriving Repr, DecidableEq

/-- Outcome signalled by the generate handler via `toast`. -/
inductive GenerateResult where
  | insufficientSelection
  | generated (count : Nat)
deriving Repr, DecidableEq

/-- The "Generate Variant Matrix" `onClick` handler: guard
`selectedColors.length === 0 || selectedSizes.length === 0` (destructive toast,
early return), otherwise build the matrix and `setGeneratedVariants(variants)`. -/
def generateClick (st : VariantFormState) (b : BaseProductFields) :
    VariantFormState × GenerateResult :=
  if st.selectedColors.length = 0 ∨ st.selectedSizes.length = 0 then
    (st, GenerateResult.insufficientSelection)
  else
    let variants := generateVariants st.selectedColors st.selectedSizes b
    ({ st with generatedVariants := variants }, GenerateResult.generated variants.length)

/-- The color/size `Badge` `onClick` handler:
`includes` → `filter(c => c !== label)`, otherwise `[...set, label]`. -/
def toggleAttribute (set : List String) (label : String) : List String :=
  if label ∈ set then set.filter (fun c => c != label) else set ++ [label]

/-- `String.prototype.trim()`: strip leading and trailing whitespace.
Executable model over the character list; `Char.isWhitespace` agrees with
JS whitespace on the ASCII labels this program handles. -/
def jsTrim (s : String) : String :=
  ⟨((s.data.dropWhile Char.isWhitespace).reverse.dropWhile Char.isWhitespace).reverse⟩

/-- Outcome of an attempt to add a custom attribute. -/
inductive AddResult where
  | noop
  | duplicate
  | added
deriving Repr, DecidableEq

/-- The custom color/size `onKeyDown` (Enter) and "Add" button handlers:
require a non-empty `trim()`, reject an exact duplicate with a destructive
toast, otherwise append the trimmed label. -/
def addCustomAttribute (set : List String) (raw : String) :
    List String × AddResult :=
  if jsTrim raw = "" then (set, AddResult.noop)
  else if jsTrim raw ∈ set then (set, AddResult.duplicate)
  else (set ++ [jsTrim raw], AddResult.added)

/-- The variant row delete button:
`setGeneratedVariants(generatedVariants.filter(v => v.id !== variant.id))`. -/
def removeVariant (variants : List VariantRecord) (vid : Nat) :
    List VariantRecord :=
  variants.filter (fun v => v.id != vid)

/-- The payload assembled by `onSubmit`: `hasVariants` and the optional
`variants` field (`undefined` is `none`). -/
structure ProductPayload where
  hasVariants : Bool
  variants : Option (List VariantRecord)
deriving Repr, DecidableEq

/-- `{ ...values, hasVariants: generatedVariants.length > 0,
variants: generatedVariants.length > 0 ? generatedVariants : undefined }`. -/
def buildProductData (generatedVariants : List VariantRecord) : ProductPayload :=
  { hasVariants := decide (0 < generatedVariants.length)
  , variants := if 0 < generatedVariants.length then some generatedVariants else none }

/-! ### Checkout wizard (`CheckoutForm`) -/

/-- The `step` `useState` of the checkout form: `"shipping" | "payment" | "review"`. -/
inductive CheckoutStep where
  | shipping
  | payment
  | review
deriving Repr, DecidableEq

/-- The `shippingAddress` object of `checkoutFormSchema`. -/
structure ShippingAddress where
  addressLine1 : String
  addressLine2 : String
  city : String
  state : String
  postalCode : String
  country : String
deriving Repr, DecidableEq

/-- The checkout form values the wizard validates:
the shipping address group and the payment method. -/
structure CheckoutFormValues where
  shippingAddress : ShippingAddress
  paymentMethod : String
  notes : String
deriving Repr, DecidableEq

/-- `form.trigger("shippingAddress")` against `checkoutFormSchema`:
each required field carries `z.string().min(1, ...)`
(`addressLine2` is `optional`). -/
def validShippingAddress (a : ShippingAddress) : Bool :=
  decide (1 ≤ a.addressLine1.length) && decide (1 ≤ a.city.length) &&
  decide (1 ≤ a.state.length) && decide (1 ≤ a.postalCode.length) &&
  decide (1 ≤ a.country.length)

/-- `form.trigger("paymentMethod")` against
`z.enum(["cod", "paypal", "stripe"])`. -/
def validPaymentMethod (m : String) : Bool :=
  m == "cod" || m == "paypal" || m == "stripe"

/-- The wizard state: current step plus the entered form values. -/
structure CheckoutState where
  step : CheckoutStep
  form : CheckoutFormValues
deriving Repr, DecidableEq

/-- `handleNextStep`: from `"shipping"`, trigger shipping validation and move
to `"payment"` only when it passes; from `"payment"`, trigger payment-method
validation and move to `"review"` only when it passes; otherwise stay. -/
def handleNextStep (st : CheckoutState) : CheckoutState :=
  if st.step = CheckoutStep.shipping then
    if validShippingAddress st.form.shippingAddress then
      { st with step := CheckoutStep.payment }
    else st
  else if st.step = CheckoutStep.payment then
    if validPaymentMethod st.form.paymentMethod then
      { st with step := CheckoutStep.review }
    else st
  else st

/-- `handlePreviousStep`: `"payment" → "shipping"`, `"review" → "payment"`,
no other transition, no validation. -/
def handlePreviousStep (st : CheckoutState) : CheckoutState :=
  if st.step = CheckoutStep.payment then { st with step := CheckoutStep.shipping }
  else if st.step = CheckoutStep.review then { st with step := CheckoutStep.payment }
  else st

/-! ### Product form tab wizard (`ProductForm`) -/

/-- The `activeTab` `useState` of the product form. -/
inductive ProductTab where
  | basic
  | pricing
  | inventory
  | category
  | media
  | variants
deriving Repr, DecidableEq

/-- The slice of product-form state relevant to the basic tab's transition:
the active tab and the `name` field validated by
`productFormSchema`'s `z.string().min(1, "Product name is required")`. -/
structure ProductFormState where
  activeTab : ProductTab
  name : String
deriving Repr, DecidableEq

/-- The "Next: Pricing" button:
`onClick={() => setActiveTab("pricing")}` — no validation is triggered. -/
def nextPricingClick (st : ProductFormState) : ProductFormState :=
  { st with activeTab := ProductTab.pricing }

/-- `productFormSchema`'s constraint on the basic tab's `name` field:
`z.string().min(1)`. -/
def validName (s : String) : Bool :=
  decide (1 ≤ s.length)

/-! ### Helper lemmas -/

theorem generateFrom_length (sku0 : String) (price : ℚ) (n : Nat)
    (l : List (String × String)) :
    (generateFrom sku0 price n l).length = l.length := by
  induction l generalizing n with
  | nil => rfl
  | cons p ps ih => simp [generateFrom, ih]

theorem generateFrom_pairs (sku0 : String) (price : ℚ) (n : Nat)
    (l : List (String × String)) :
    (generateFrom sku0 price n l).map (fun v => (v.color, v.size)) = l := by
  induction l generalizing n with
  | nil => rfl
  | cons p ps ih => simp [generateFrom, mkVariant, ih]

theorem variantMatrix_length (colors sizes : List String) :
    (variantMatrix colors sizes).length = colors.length * sizes.length := by
  induction colors with
  | nil => simp [variantMatrix]
  | cons c t ih =>
    simp only [variantMatrix, List.flatMap_cons, List.length_append,
      List.length_map, List.length_cons] at ih ⊢
    rw [ih]; ring

theorem generateVariants_length (colors sizes : List String) (b : BaseProductFields) :
    (generateVariants colors sizes b).length = colors.length * sizes.length := by
  unfold generateVariants
  rw [generateFrom_length, variantMatrix_length]

theorem generateVariants_pairs (colors sizes : List String) (b : BaseProductFields) :
    (generateVariants colors sizes b).map (fun v => (v.color, v.size)) =
      colors.flatMap (fun c => sizes.map (fun s => (c, s))) := by
  unfold generateVariants
  rw [generateFrom_pairs]
  rfl

theorem generateClick_eq (cs ss : List String) (gv : List VariantRecord)
    (b : BaseProductFields) (hc : cs ≠ []) (hs : ss ≠ []) :
    generateClick ⟨cs, ss, gv⟩ b =
      (⟨cs, ss, generateVariants cs ss b⟩,
        GenerateResult.generated (generateVariants cs ss b).length) := by
  have hif : ¬ (cs.length = 0 ∨ ss.length = 0) := by
    simp [List.length_eq_zero, hc, hs]
  simp only [generateClick]
  rw [if_neg hif]

theorem generateFrom_sku (sku0 : String) (price : ℚ) (n : Nat)
    (l : List (String × String)) :
    ∀ v ∈ generateFrom sku0 price n l,
      v.sku = sku0 ++ "-" ++ v.color.take 1 ++ v.size := by
  induction l generalizing n with
  | nil => intro v hv; simp [generateFrom] at hv
  | cons p ps ih =>
    intro v hv
    simp only [generateFrom, List.mem_cons] at hv
    rcases hv with rfl | hv
    · rfl
    · exact ih (n + 1) v hv

theorem removeVariant_mem (l : List VariantRecord) (vid : Nat) (w : VariantRecord) :
    w ∈ removeVariant l vid ↔ w ∈ l ∧ w.id ≠ vid := by
  simp [removeVariant, List.mem_filter]

theorem removeVariant_length_of_mem (l : List VariantRecord) (vid : Nat)
    (hnd : (l.map VariantRecord.id).Nodup) (hex : ∃ v ∈ l, v.id = vid) :
    (removeVariant l vid).length + 1 = l.length := by
  induction l with
  | nil => simp at hex
  | cons v t ih =>
    rw [List.map_cons, List.nodup_cons] at hnd
    obtain ⟨hv, ht⟩ := hnd
    by_cases h : v.id = vid
    · have hall : t.filter (fun w => w.id != vid) = t := by
        apply List.filter_eq_self.mpr
        intro w hw
        simp only [bne_iff_ne, ne_eq, decide_not, decide_eq_true_eq]
        intro he
        have hmem : w.id ∈ t.map VariantRecord.id :=
          List.mem_map_of_mem VariantRecord.id hw
        rw [he, ← h] at hmem
        exact hv hmem
      have hbne : (v.id != vid) = false := by simp [h]
      simp [removeVariant, List.filter_cons, hbne, hall]
    · obtain ⟨w, hw, hwid⟩ := hex
      rcases List.mem_cons.mp hw with rfl | hwt
      · exact absurd hwid h
      · have hrec := ih ht ⟨w, hwt, hwid⟩
        have hbne : (v.id != vid) = true := by simp [h]
        have hcons : removeVariant (v :: t) vid = v :: removeVariant t vid := by
          simp [removeVariant, List.filter_cons, hbne]
        rw [hcons]
        simp only [List.length_cons]
        omega

theorem removeVariant_idem (l : List VariantRecord) (vid : Nat) :
    removeVariant (removeVariant l vid) vid = removeVariant l vid := by
  apply List.filter_eq_self.mpr
  intro w hw
  simp only [removeVariant, List.mem_filter] at hw
  exact hw.2

/-! ### Claims -/

/-- Claim C1: with both attribute sets non-empty, a generate click produces
exactly `|colors| × |sizes|` records, enumerated color-major (colors outer,
sizes inner), leaves the selections unchanged, and the new collection fully
replaces any previously generated collection (the outcome is independent of
the prior collection). -/
theorem generate_matrix_shape (st : VariantFormState) (b : BaseProductFields)
    (hc : st.selectedColors ≠ []) (hs : st.selectedSizes ≠ []) :
    (generateClick st b).1.generatedVariants.length =
        st.selectedColors.length * st.selectedSizes.length ∧
    (generateClick st b).1.generatedVariants.map (fun v => (v.color, v.size)) =
        st.selectedColors.flatMap (fun c => st.selectedSizes.map (fun s => (c, s))) ∧
    (generateClick st b).1.selectedColors = st.selectedColors ∧
    (generateClick st b).1.selectedSizes = st.selectedSizes ∧
    (∀ prior : List VariantRecord,
        (generateClick { st with generatedVariants := prior } b).1.generatedVariants =
          (generateClick st b).1.generatedVariants) ∧
    (generateClick st b).2 =
        GenerateResult.generated (st.selectedColors.length * st.selectedSizes.length) := by
  obtain ⟨cs, ss, gv⟩ := st
  refine ⟨?_, ?_, ?_, ?_, ?_, ?_⟩
  · rw [generateClick_eq cs ss gv b hc hs]
    exact generateVariants_length cs ss b
  · rw [generateClick_eq cs ss gv b hc hs]
    exact generateVariants_pairs cs ss b
  · rw [generateClick_eq cs ss gv b hc hs]
  · rw [generateClick_eq cs ss gv b hc hs]
  · intro prior
    rw [generateClick_eq cs ss prior b hc hs, generateClick_eq cs ss gv b hc hs]
  · rw [generateClick_eq cs ss gv b hc hs, generateVariants_length cs ss b]

theorem generate_matrix_shape_witness :
    (generateClick ⟨["Red"], ["S"], []⟩ ⟨"", none, none⟩).1.generatedVariants.length =
      (["Red"] : List String).length * (["S"] : List String).length :=
  (generate_matrix_shape ⟨["Red"], ["S"], []⟩ ⟨"", none, none⟩
    (by decide) (by decide)).1

/-- Claim C2: a generate click with either attribute set empty signals
"insufficient selection" and leaves the whole state, in particular the
previously generated collection, unchanged. -/
theorem generate_empty_noop (st : VariantFormState) (b : BaseProductFields)
    (h : st.selectedColors = [] ∨ st.selectedSizes = []) :
    generateClick st b = (st, GenerateResult.insufficientSelection) := by
  rcases h with h | h <;> simp [generateClick, h]

theorem generate_empty_noop_witness :
    generateClick ⟨[], ["S"], [⟨0, "Red", "S", "X", 1, 1, 1, 18, 10, [], none⟩]⟩
        ⟨"", none, none⟩ =
      (⟨[], ["S"], [⟨0, "Red", "S", "X", 1, 1, 1, 18, 10, [], none⟩]⟩,
        GenerateResult.insufficientSelection) :=
  generate_empty_noop _ _ (Or.inl rfl)

/-- Claim C3: the Red/Blue × S/M scenario with base selling price 100 and
base SKU "SHI" yields the four records SHI-RS, SHI-RM, SHI-BS, SHI-BM with
selling price 100, mrp 120, purchase price 70, gst 18 and inventory 10;
in general every generated SKU is `{baseSku}-{firstLetterOfColor}{size}`,
where the prefix falls back to the name's first three characters uppercased
when the base SKU is absent, and to `"PRD"` when the name is also absent. -/
theorem scenario_sku_pricing :
    ((generateVariants ["Red", "Blue"] ["S", "M"]
        ⟨"Shirt", some "SHI", some 100⟩).map VariantRecord.sku =
      ["SHI-RS", "SHI-RM", "SHI-BS", "SHI-BM"] ∧
     (generateVariants ["Red", "Blue"] ["S", "M"]
        ⟨"Shirt", some "SHI", some 100⟩).length = 4 ∧
     (∀ v ∈ generateVariants ["Red", "Blue"] ["S", "M"] ⟨"Shirt", some "SHI", some 100⟩,
        v.sellingPrice = 100 ∧ v.mrp = 120 ∧ v.purchasePrice = 70 ∧
        v.gst = 18 ∧ v.inventoryQuantity = 10)) ∧
    (∀ (colors sizes : List String) (b : BaseProductFields),
        ∀ v ∈ generateVariants colors sizes b,
          v.sku = baseSku b ++ "-" ++ v.color.take 1 ++ v.size) ∧
    (∀ b : BaseProductFields, b.sku = none → b.name ≠ "" →
        baseSku b = (b.name.take 3).toUpper) ∧
    (∀ b : BaseProductFields, b.sku = none → b.name = "" → baseSku b = "PRD") := by
  refine ⟨⟨by decide, by decide, ?_⟩, ?_, ?_, ?_⟩
  · intro v hv
    simp [generateVariants, variantMatrix, mkVariant, basePrice, baseSku,
      generateFrom] at hv
    rcases hv with h | h | h | h <;> subst h <;> norm_num
  · intro colors sizes b v hv
    exact generateFrom_sku (baseSku b) (basePrice b) 0 (variantMatrix colors sizes) v hv
  · intro b h1 h2
    simp [baseSku, h1, h2]
  · intro b h1 h2
    simp [baseSku, h1, h2]

theorem scenario_sku_pricing_witness :
    baseSku ⟨"", none, none⟩ = "PRD" :=
  scenario_sku_pricing.2.2.2 ⟨"", none, none⟩ rfl rfl

/-- Claim C4 counterexample: the product-form wizard's "Next: Pricing" click
advances from the basic tab to the pricing tab even when the basic tab's
`name` field is invalid (empty), so not every wizard gates forward
transitions on validation. -/
theorem product_next_skips_validation :
    validName (ProductFormState.mk ProductTab.basic "").name = false ∧
    (nextPricingClick (ProductFormState.mk ProductTab.basic "")).activeTab =
      ProductTab.pricing := by
  exact ⟨rfl, rfl⟩

/-- Claim C4 (amended): the checkout wizard validates the current step's
field group and advances exactly when validation succeeds, staying put
otherwise; the product-form wizard's next-tab click advances unconditionally
without validating, modifying no field values. -/
theorem wizard_advance_validation (cst : CheckoutState) (pst : ProductFormState) :
    (cst.step = CheckoutStep.shipping →
        validShippingAddress cst.form.shippingAddress = true →
        (handleNextStep cst).step = CheckoutStep.payment) ∧
    (cst.step = CheckoutStep.shipping →
        validShippingAddress cst.form.shippingAddress = false →
        handleNextStep cst = cst) ∧
    (cst.step = CheckoutStep.payment →
        validPaymentMethod cst.form.paymentMethod = true →
        (handleNextStep cst).step = CheckoutStep.review) ∧
    (cst.step = CheckoutStep.payment →
        validPaymentMethod cst.form.paymentMethod = false →
        handleNextStep cst = cst) ∧
    (cst.step = CheckoutStep.review → handleNextStep cst = cst) ∧
    (nextPricingClick pst).activeTab = ProductTab.pricing ∧
    (nextPricingClick pst).name = pst.name := by
  obtain ⟨step, form⟩ := cst
  cases step with
  | shipping =>
    cases hv : validShippingAddress form.shippingAddress <;>
      simp [handleNextStep, hv, nextPricingClick]
  | payment =>
    cases hv : validPaymentMethod form.paymentMethod <;>
      simp [handleNextStep, hv, nextPricingClick]
  | review => simp [handleNextStep, nextPricingClick]

theorem wizard_advance_validation_witness :
    (handleNextStep ⟨CheckoutStep.shipping,
        ⟨⟨"1 Main St", "", "Pune", "MH", "411001", "India"⟩, "cod", ""⟩⟩).step =
      CheckoutStep.payment ∧
    (nextPricingClick ⟨ProductTab.basic, "Shirt"⟩).activeTab = ProductTab.pricing :=
  ⟨(wizard_advance_validation
      ⟨CheckoutStep.shipping,
        ⟨⟨"1 Main St", "", "Pune", "MH", "411001", "India"⟩, "cod", ""⟩⟩
      ⟨ProductTab.basic, "Shirt"⟩).1 rfl (by decide),
   (wizard_advance_validation
      ⟨CheckoutStep.shipping,
        ⟨⟨"1 Main St", "", "Pune", "MH", "411001", "India"⟩, "cod", ""⟩⟩
      ⟨ProductTab.basic, "Shirt"⟩).2.2.2.2.2.1⟩

/-- Claim C5: in the checkout wizard, advancing from the shipping step with
any required address field empty never reaches the payment step; the wizard
stays on shipping. -/
theorem shipping_blocks_on_empty_field (st : CheckoutState)
    (hstep : st.step = CheckoutStep.shipping)
    (hempty : st.form.shippingAddress.addressLine1 = "" ∨
              st.form.shippingAddress.city = "" ∨
              st.form.shippingAddress.state = "" ∨
              st.form.shippingAddress.postalCode = "" ∨
              st.form.shippingAddress.country = "") :
    (handleNextStep st).step = CheckoutStep.shipping := by
  have hv : validShippingAddress st.form.shippingAddress = false := by
    rcases hempty with h | h | h | h | h <;> simp [validShippingAddress, h]
  simp [handleNextStep, hstep, hv]

theorem shipping_blocks_on_empty_field_witness :
    (handleNextStep ⟨CheckoutStep.shipping,
        ⟨⟨"", "", "Pune", "MH", "411001", "India"⟩, "cod", ""⟩⟩).step =
      CheckoutStep.shipping :=
  shipping_blocks_on_empty_field _ rfl (Or.inl rfl)

/-- Claim C6: toggling the same label twice restores the set's membership and
leaves the relative order of all other elements unchanged; a single toggle
removes a present label and appends an absent one. -/
theorem toggle_involutive (set : List String) (label : String) :
    (∀ x, x ∈ toggleAttribute (toggleAttribute set label) label ↔ x ∈ set) ∧
    (toggleAttribute (toggleAttribute set label) label).filter (fun c => c != label) =
      set.filter (fun c => c != label) ∧
    (label ∈ set → toggleAttribute set label = set.filter (fun c => c != label)) ∧
    (label ∉ set → toggleAttribute set label = set ++ [label]) := by
  by_cases h : label ∈ set
  · have h1 : toggleAttribute set label = set.filter (fun c => c != label) := by
      simp [toggleAttribute, h]
    have h2 : label ∉ set.filter (fun c => c != label) := by
      simp [List.mem_filter]
    have h3 : toggleAttribute (set.filter (fun c => c != label)) label =
        set.filter (fun c => c != label) ++ [label] := by
      simp [toggleAttribute, h2]
    refine ⟨?_, ?_, fun _ => h1, fun hn => absurd h hn⟩
    · intro x
      rw [h1, h3]
      simp only [List.mem_append, List.mem_filter, List.mem_singleton,
        bne_iff_ne, ne_eq, decide_not]
      constructor
      · rintro (⟨hx, _⟩ | rfl)
        · exact hx
        · exact h
      · intro hx
        by_cases hxl : x = label
        · exact Or.inr hxl
        · exact Or.inl ⟨hx, by simp [hxl]⟩
    · rw [h1, h3, List.filter_append]
      simp [List.filter_filter]
  · have h1 : toggleAttribute set label = set ++ [label] := by
      simp [toggleAttribute, h]
    have h4 : (set ++ [label]).filter (fun c => c != label) = set := by
      rw [List.filter_append]
      have hself : set.filter (fun c => c != label) = set := by
        apply List.filter_eq_self.mpr
        intro a ha
        simp only [bne_iff_ne, ne_eq, decide_not, decide_eq_true_eq]
        rintro rfl
        exact h ha
      simp [hself]
    have h5 : toggleAttribute (set ++ [label]) label = set := by
      have hm : label ∈ set ++ [label] := by simp
      simp only [toggleAttribute, if_pos hm]
      exact h4
    refine ⟨?_, ?_, fun hmem => absurd hmem h, fun _ => h1⟩
    · intro x
      rw [h1, h5]
    · rw [h1, h5]

theorem toggle_involutive_witness :
    (toggleAttribute (toggleAttribute ["Red", "Blue"] "Red") "Red").filter
        (fun c => c != "Red") =
      (["Red", "Blue"] : List String).filter (fun c => c != "Red") ∧
    toggleAttribute ["Red", "Blue"] "Blue" =
      (["Red", "Blue"] : List String).filter (fun c => c != "Blue") :=
  ⟨(toggle_involutive ["Red", "Blue"] "Red").2.1,
   (toggle_involutive ["Red", "Blue"] "Blue").2.2.1 (by decide)⟩

/-- Claim C7: adding a custom attribute trims the raw label; an empty trimmed
label is a no-op, an exact duplicate fails with the duplicate signal leaving
the set unchanged (so adding the same trimmed label twice fails the second
time with the set size unchanged), and otherwise the trimmed label is
appended at the end. -/
theorem addCustom_trim_dup (set : List String) (raw : String) :
    (jsTrim raw = "" → addCustomAttribute set raw = (set, AddResult.noop)) ∧
    (jsTrim raw ≠ "" → jsTrim raw ∈ set →
        addCustomAttribute set raw = (set, AddResult.duplicate)) ∧
    (jsTrim raw ≠ "" → jsTrim raw ∉ set →
        addCustomAttribute set raw = (set ++ [jsTrim raw], AddResult.added)) ∧
    (jsTrim raw ≠ "" →
        (addCustomAttribute (addCustomAttribute set raw).1 raw).2 =
          AddResult.duplicate ∧
        (addCustomAttribute (addCustomAttribute set raw).1 raw).1.length =
          (addCustomAttribute set raw).1.length) := by
  refine ⟨fun h => by simp [addCustomAttribute, h],
          fun h hm => by simp [addCustomAttribute, h, hm],
          fun h hm => by simp [addCustomAttribute, h, hm], ?_⟩
  intro h
  by_cases hm : jsTrim raw ∈ set
  · simp [addCustomAttribute, h, hm]
  · simp [addCustomAttribute, h, hm]

theorem addCustom_trim_dup_witness :
    addCustomAttribute ["Red"] " Teal " = (["Red", "Teal"], AddResult.added) ∧
    addCustomAttribute ["Red", "Teal"] "Teal" = (["Red", "Teal"], AddResult.duplicate) ∧
    addCustomAttribute ["Red"] "   " = (["Red"], AddResult.noop) :=
  ⟨(addCustom_trim_dup ["Red"] " Teal ").2.2.1 (by decide) (by decide),
   (addCustom_trim_dup ["Red", "Teal"] "Teal").2.1 (by decide) (by decide),
   (addCustom_trim_dup ["Red"] "   ").1 (by decide)⟩

/-- Claim C8: removing by an identifier present in a collection with distinct
identifiers deletes exactly one record, keeping every record with another
identifier in order; removing an absent identifier, in particular the same
identifier a second time, is a no-op. -/
theorem remove_variant_spec (l : List VariantRecord) (vid : Nat)
    (hnd : (l.map VariantRecord.id).Nodup) :
    ((∃ v ∈ l, v.id = vid) → (removeVariant l vid).length + 1 = l.length) ∧
    (∀ w, w ∈ removeVariant l vid ↔ w ∈ l ∧ w.id ≠ vid) ∧
    List.Sublist (removeVariant l vid) l ∧
    ((∀ v ∈ l, v.id ≠ vid) → removeVariant l vid = l) ∧
    removeVariant (removeVariant l vid) vid = removeVariant l vid := by
  refine ⟨removeVariant_length_of_mem l vid hnd, removeVariant_mem l vid,
          List.filter_sublist l, ?_, removeVariant_idem l vid⟩
  intro hall
  apply List.filter_eq_self.mpr
  intro a ha
  simp only [bne_iff_ne, ne_eq, decide_not, decide_eq_true_eq]
  exact hall a ha

theorem remove_variant_spec_witness :
    (removeVariant [⟨0, "Red", "S", "X", 1, 1, 1, 18, 10, [], none⟩,
                    ⟨1, "Red", "M", "Y", 1, 1, 1, 18, 10, [], none⟩] 0).length + 1 =
      ([⟨0, "Red", "S", "X", 1, 1, 1, 18, 10, [], none⟩,
        ⟨1, "Red", "M", "Y", 1, 1, 1, 18, 10, [], none⟩] : List VariantRecord).length :=
  (remove_variant_spec
    [⟨0, "Red", "S", "X", 1, 1, 1, 18, 10, [], none⟩,
     ⟨1, "Red", "M", "Y", 1, 1, 1, 18, 10, [], none⟩] 0 (by decide)).1
    ⟨⟨0, "Red", "S", "X", 1, 1, 1, 18, 10, [], none⟩, by decide, rfl⟩

/-- Claim C9: retreating moves to the immediately previous step
unconditionally, is a no-op on the first step, and modifies no form values;
in particular retreating from review to payment preserves the chosen payment
method. -/
theorem retreat_unvalidated_frame (st : CheckoutState) :
    (handlePreviousStep st).form = st.form ∧
    (st.step = CheckoutStep.shipping → handlePreviousStep st = st) ∧
    (st.step = CheckoutStep.payment →
        (handlePreviousStep st).step = CheckoutStep.shipping) ∧
    (st.step = CheckoutStep.review →
        (handlePreviousStep st).step = CheckoutStep.payment) ∧
    (handlePreviousStep st).form.paymentMethod = st.form.paymentMethod := by
  obtain ⟨step, form⟩ := st
  cases step <;> simp [handlePreviousStep]

theorem retreat_unvalidated_frame_witness :
    (handlePreviousStep ⟨CheckoutStep.review,
        ⟨⟨"1 Main St", "", "Pune", "MH", "411001", "India"⟩, "paypal", ""⟩⟩).step =
      CheckoutStep.payment ∧
    (handlePreviousStep ⟨CheckoutStep.review,
        ⟨⟨"1 Main St", "", "Pune", "MH", "411001", "India"⟩, "paypal", ""⟩⟩).form.paymentMethod =
      "paypal" :=
  ⟨(retreat_unvalidated_frame ⟨CheckoutStep.review,
      ⟨⟨"1 Main St", "", "Pune", "MH", "411001", "India"⟩, "paypal", ""⟩⟩).2.2.2.1 rfl,
   (retreat_unvalidated_frame ⟨CheckoutStep.review,
      ⟨⟨"1 Main St", "", "Pune", "MH", "411001", "India"⟩, "paypal", ""⟩⟩).2.2.2.2⟩

/-- Claim C10: the submitted payload's `hasVariants` is true exactly when the
generated collection is non-empty; the `variants` field is omitted
(`undefined`) when the collection is empty and equals the collection exactly
otherwise. -/
theorem submit_payload_variants (vs : List VariantRecord) :
    ((buildProductData vs).hasVariants = true ↔ vs ≠ []) ∧
    (vs = [] → (buildProductData vs).variants = none) ∧
    (vs ≠ [] → (buildProductData vs).variants = some vs) := by
  refine ⟨?_, ?_, ?_⟩ <;> cases vs <;> simp [buildProductData]

theorem submit_payload_variants_witness :
    (buildProductData []).variants = none ∧
    (buildProductData [⟨0, "Red", "S", "X", 1, 1, 1, 18, 10, [], none⟩]).variants =
      some [⟨0, "Red", "S", "X", 1, 1, 1, 18, 10, [], none⟩] :=
  ⟨(submit_payload_variants []).2.1 rfl,
   (submit_payload_variants [⟨0, "Red", "S", "X", 1, 1, 1, 18, 10, [], none⟩]).2.2
     (by decide)⟩

end UniVendor
